import Mathlib

/-!
A verification development for ShivyC's AST code-generation core (src/ast.py):
the node model, construction-time tree validation, the value-descriptor type,
and the constant-folding emission walk.  The classes `Token`, the kind
enumeration and `ValueInfo` are owned by collaborating modules (tokens.py,
token_kinds.py, code_gen.py) that are not part of the staged sources; they are
modelled from the specification as noted on each definition.
-/

namespace ShivyC

/-- Modelled from the spec: the token-kind enumeration lives in token_kinds.py,
which is not among the staged sources.  The spec requires a fixed enumeration
holding at minimum the kinds number, plus and star. -/
inductive TokenKind
  | number
  | plus
  | star
deriving DecidableEq, Repr

/-- Modelled from the spec: class Token lives in tokens.py, which is not among
the staged sources.  A token is an immutable record of a kind and the literal
text content; two tokens are equal iff kind and content match, which is the
structural equality of this structure. -/
structure Token where
  kind : TokenKind
  content : String
deriving DecidableEq, Repr

/-- Modelled from the spec: class ValueInfo lives in code_gen.py, which is not
among the staged sources.  A value descriptor is a pair of a storage-kind tag
and a payload; only the Literal kind is defined today, but the tag is open for
future kinds (register- or memory-resident values), so it is modelled as a
bare numeric tag with `ValueInfo.LITERAL` the one distinguished constant. -/
structure ValueInfo where
  storage_type : Nat
  storage_info : String
deriving DecidableEq, Repr

/-- The class constant ValueInfo.LITERAL, the storage-kind tag of
compile-time literal values. -/
def ValueInfo.LITERAL : Nat := 1

/-- One entry of the instruction buffer: a label, or a command given as the
ordered list of its string parts (mnemonic then operands). -/
inductive CodeItem
  | label (name : String)
  | command (parts : List String)
deriving DecidableEq, Repr

/-- The instruction buffer (the code_store argument of every make_code),
modelled from the spec as the ordered list of what has been appended:
it exposes only add_label and add_command, both append-only. -/
abbrev CodeStore := List CodeItem

/-- code_store.add_label(name): records a label at the current position. -/
def add_label (code_store : CodeStore) (name : String) : CodeStore :=
  code_store ++ [CodeItem.label name]

/-- code_store.add_command(parts): appends one instruction in emission
order. -/
def add_command (code_store : CodeStore) (parts : List String) : CodeStore :=
  code_store ++ [CodeItem.command parts]

/-- The AST node variants of src/ast.py - MainNode, ReturnNode, NumberNode and
BinaryOperatorNode - with exactly the fields each __init__ stores. -/
inductive Node
  | main (statements : List Node)
  | ret (return_value : Node)
  | number (number : Token)
  | binop (left_expr : Node) (operator : Token) (right_expr : Node)

/-- The class attribute `symbol` of each node class in src/ast.py. -/
def Node.symbol : Node → String
  | Node.main _ => "main_function"
  | Node.ret _ => "statement"
  | Node.number _ => "expression"
  | Node.binop _ _ _ => "expression"

/-- The exceptions the walked code can raise: ValueError("malformed tree ...")
from assert_symbol and assert_kind, NotImplementedError from the unsupported
feature paths, the host language's AttributeError from attribute access on a
value that is not a ValueInfo, and its ValueError from int() on a string that
is not a decimal numeral. -/
inductive PyError
  | malformedSymbol (expected actual : String)
  | malformedKind (expected actual : TokenKind)
  | notImplemented
  | attrError
  | valueErrorInt
deriving DecidableEq, Repr

/-- What a make_code call can return in the dynamically typed source: None
(statement and top-level nodes), a ValueInfo (expression nodes), or - through
the `return NotImplementedError` line of BinaryOperatorNode.multiply - the
NotImplementedError class object itself, passed along as an ordinary value. -/
inductive PyValue
  | none
  | value (v : ValueInfo)
  | errClass
deriving DecidableEq, Repr

/-- Attribute access value_info.storage_type / value_info.storage_info:
it succeeds exactly when the value is a ValueInfo and raises AttributeError
otherwise (on None or on the NotImplementedError class object). -/
def asValueInfo : PyValue → Except PyError ValueInfo
  | PyValue.value v => Except.ok v
  | _ => Except.error PyError.attrError

/-- Reads a run of decimal digits into an accumulator; fails on the first
character that is not a digit. -/
def parseNatDigits : List Char → Nat → Option Nat
  | [], acc => Option.some acc
  | c :: rest, acc =>
    if c.isDigit then parseNatDigits rest (10 * acc + (c.toNat - 48))
    else Option.none

/-- Modelled from the spec: Python's built-in int() on the decimal string
payloads used here (an optional minus sign followed by one or more decimal
digits); any other string raises ValueError, modelled as `none`.  Python
integers are unbounded, so the result is an Int. -/
def str_to_int (s : String) : Option Int :=
  match s.data with
  | [] => Option.none
  | '-' :: [] => Option.none
  | '-' :: rest => (parseNatDigits rest 0).map (fun n => -(n : Int))
  | l => (parseNatDigits l 0).map (fun n => (n : Int))

/-- Node.assert_symbol of src/ast.py: raises ValueError("malformed tree ...")
when the child node's symbol is not the expected one. -/
def assert_symbol (node : Node) (symbol_name : String) : Except PyError Unit :=
  if node.symbol = symbol_name then Except.ok ()
  else Except.error (PyError.malformedSymbol symbol_name node.symbol)

/-- Node.assert_kind of src/ast.py: raises ValueError("malformed tree ...")
when the token's kind is not the expected one. -/
def assert_kind (token : Token) (kind : TokenKind) : Except PyError Unit :=
  if token.kind = kind then Except.ok ()
  else Except.error (PyError.malformedKind kind token.kind)

/-- The validation loop of MainNode.__init__:
`for statement in statements: self.assert_symbol(statement, "statement")`. -/
def checkStatements : List Node → Except PyError Unit
  | [] => Except.ok ()
  | s :: rest =>
    match assert_symbol s "statement" with
    | Except.error e => Except.error e
    | Except.ok _ => checkStatements rest

/-- MainNode.__init__ of src/ast.py: validates every element's symbol, then
stores the list. -/
def mkMainNode (statements : List Node) : Except PyError Node :=
  match checkStatements statements with
  | Except.error e => Except.error e
  | Except.ok _ => Except.ok (Node.main statements)

/-- ReturnNode.__init__ of src/ast.py: validates the child's symbol, then
stores it. -/
def mkReturnNode (return_value : Node) : Except PyError Node :=
  match assert_symbol return_value "expression" with
  | Except.error e => Except.error e
  | Except.ok _ => Except.ok (Node.ret return_value)

/-- NumberNode.__init__ of src/ast.py: validates the token's kind, then
stores it. -/
def mkNumberNode (number : Token) : Except PyError Node :=
  match assert_kind number TokenKind.number with
  | Except.error e => Except.error e
  | Except.ok _ => Except.ok (Node.number number)

/-- BinaryOperatorNode.__init__ of src/ast.py: validates the two children's
symbols; for the operator it only runs `assert isinstance(operator, Token)`,
which the typed embedding makes trivially true - the operator's kind is not
inspected at construction. -/
def mkBinaryOperatorNode (left_expr : Node) (operator : Token)
    (right_expr : Node) : Except PyError Node :=
  match assert_symbol left_expr "expression" with
  | Except.error e => Except.error e
  | Except.ok _ =>
    match assert_symbol right_expr "expression" with
    | Except.error e => Except.error e
    | Except.ok _ => Except.ok (Node.binop left_expr operator right_expr)

/-- BinaryOperatorNode.add of src/ast.py: when both operands are descriptors
with storage kind LITERAL (the boolean condition short-circuits, left operand
first, as Python's `and` does), fold the sum at compile time and return a
LITERAL descriptor of str(int(left) + int(right)); otherwise raise
NotImplementedError. -/
def BinaryOperatorNode.add (left_value right_value : PyValue)
    (code_store : CodeStore) : Except PyError (PyValue × CodeStore) :=
  match asValueInfo left_value with
  | Except.error e => Except.error e
  | Except.ok lv =>
    if lv.storage_type = ValueInfo.LITERAL then
      match asValueInfo right_value with
      | Except.error e => Except.error e
      | Except.ok rv =>
        if rv.storage_type = ValueInfo.LITERAL then
          match str_to_int lv.storage_info with
          | Option.none => Except.error PyError.valueErrorInt
          | Option.some a =>
            match str_to_int rv.storage_info with
            | Option.none => Except.error PyError.valueErrorInt
            | Option.some b =>
              Except.ok (PyValue.value ⟨ValueInfo.LITERAL, toString (a + b)⟩,
                code_store)
        else Except.error PyError.notImplemented
    else Except.error PyError.notImplemented

/-- BinaryOperatorNode.multiply of src/ast.py: the literal-operand branch
folds the product like `add` folds the sum, but the non-literal branch reads
`return NotImplementedError` - it RETURNS the exception class as a normal
value instead of raising it. -/
def BinaryOperatorNode.multiply (left_value right_value : PyValue)
    (code_store : CodeStore) : Except PyError (PyValue × CodeStore) :=
  match asValueInfo left_value with
  | Except.error e => Except.error e
  | Except.ok lv =>
    if lv.storage_type = ValueInfo.LITERAL then
      match asValueInfo right_value with
      | Except.error e => Except.error e
      | Except.ok rv =>
        if rv.storage_type = ValueInfo.LITERAL then
          match str_to_int lv.storage_info with
          | Option.none => Except.error PyError.valueErrorInt
          | Option.some a =>
            match str_to_int rv.storage_info with
            | Option.none => Except.error PyError.valueErrorInt
            | Option.some b =>
              Except.ok (PyValue.value ⟨ValueInfo.LITERAL, toString (a * b)⟩,
                code_store)
        else Except.ok (PyValue.errClass, code_store)
    else Except.ok (PyValue.errClass, code_store)

/-- The tail of ReturnNode.make_code of src/ast.py after the recursive child
emission, factored out over an arbitrary received value: read the
descriptor's storage kind (AttributeError if the value is not a descriptor);
on a LITERAL, append mov-into-rax, pop rbp, ret, returning None; on any other
kind raise NotImplementedError. -/
def ReturnNode.emit_return (value_info : PyValue) (code_store : CodeStore) :
    Except PyError (PyValue × CodeStore) :=
  match asValueInfo value_info with
  | Except.error e => Except.error e
  | Except.ok v =>
    if v.storage_type = ValueInfo.LITERAL then
      Except.ok (PyValue.none,
        add_command (add_command (add_command code_store
          ["mov", "rax", v.storage_info]) ["pop", "rbp"]) ["ret"])
    else Except.error PyError.notImplemented

mutual

/-- make_code of src/ast.py, one clause per node class.  The operator dispatch
in the source compares `self.operator == Token(token_kinds.plus)`; Token
equality and the content a bare Token(kind) carries live in tokens.py, which
is not among the staged sources, so the dispatch is modelled from the spec,
which dispatches on the operator token's kind. -/
def Node.make_code : Node → CodeStore → Except PyError (PyValue × CodeStore)
  | Node.main statements, code_store =>
    match makeStatements statements
        (add_command (add_command (add_label code_store "main")
          ["push", "rbp"]) ["mov", "rbp", "rsp"]) with
    | Except.error e => Except.error e
    | Except.ok cs2 =>
      Except.ok (PyValue.none,
        add_command (add_command (add_command cs2 ["mov", "rax", "0"])
          ["pop", "rbp"]) ["ret"])
  | Node.ret return_value, code_store =>
    match Node.make_code return_value code_store with
    | Except.error e => Except.error e
    | Except.ok (value_info, cs1) => ReturnNode.emit_return value_info cs1
  | Node.number number, code_store =>
    Except.ok (PyValue.value ⟨ValueInfo.LITERAL, number.content⟩, code_store)
  | Node.binop left_expr operator right_expr, code_store =>
    match Node.make_code left_expr code_store with
    | Except.error e => Except.error e
    | Except.ok (left_value, cs1) =>
      match Node.make_code right_expr cs1 with
      | Except.error e => Except.error e
      | Except.ok (right_value, cs2) =>
        if operator.kind = TokenKind.plus then
          BinaryOperatorNode.add left_value right_value cs2
        else if operator.kind = TokenKind.star then
          BinaryOperatorNode.multiply left_value right_value cs2
        else Except.error PyError.notImplemented

/-- The statement loop of MainNode.make_code: emit each statement in list
order, discarding the returned values; an exception aborts the loop. -/
def makeStatements : List Node → CodeStore → Except PyError CodeStore
  | [], code_store => Except.ok code_store
  | s :: rest, code_store =>
    match Node.make_code s code_store with
    | Except.error e => Except.error e
    | Except.ok (_, cs2) => makeStatements rest cs2

end

/-- An event observable during the emission walk: a make_code call entering a
node, or one write to the instruction buffer. -/
inductive EmitEvent
  | call (n : Node)
  | write (item : CodeItem)

/-- ReturnNode.emit_return instrumented to also record its buffer writes as
events, in write order. -/
def ReturnNode.emit_return_tr (value_info : PyValue) (code_store : CodeStore) :
    Except PyError (PyValue × CodeStore) × List EmitEvent :=
  match asValueInfo value_info with
  | Except.error e => (Except.error e, [])
  | Except.ok v =>
    if v.storage_type = ValueInfo.LITERAL then
      (Except.ok (PyValue.none,
        add_command (add_command (add_command code_store
          ["mov", "rax", v.storage_info]) ["pop", "rbp"]) ["ret"]),
        [EmitEvent.write (CodeItem.command ["mov", "rax", v.storage_info]),
          EmitEvent.write (CodeItem.command ["pop", "rbp"]),
          EmitEvent.write (CodeItem.command ["ret"])])
    else (Except.error PyError.notImplemented, [])

mutual

/-- The emission walk instrumented as a test double: same recursion and same
result as Node.make_code, but also returning the ordered trace of make_code
entries and buffer writes observed up to the point the walk returned or
raised. -/
def make_code_tr : Node → CodeStore → Except PyError (PyValue × CodeStore) × List EmitEvent
  | Node.main statements, code_store =>
    match makeStatements_tr statements
        (add_command (add_command (add_label code_store "main")
          ["push", "rbp"]) ["mov", "rbp", "rsp"]) with
    | (Except.error e, evs) =>
      (Except.error e,
        EmitEvent.call (Node.main statements) :: EmitEvent.write (CodeItem.label "main") ::
          EmitEvent.write (CodeItem.command ["push", "rbp"]) ::
          EmitEvent.write (CodeItem.command ["mov", "rbp", "rsp"]) :: evs)
    | (Except.ok cs2, evs) =>
      (Except.ok (PyValue.none,
        add_command (add_command (add_command cs2 ["mov", "rax", "0"])
          ["pop", "rbp"]) ["ret"]),
        EmitEvent.call (Node.main statements) :: EmitEvent.write (CodeItem.label "main") ::
          EmitEvent.write (CodeItem.command ["push", "rbp"]) ::
          EmitEvent.write (CodeItem.command ["mov", "rbp", "rsp"]) ::
          (evs ++ [EmitEvent.write (CodeItem.command ["mov", "rax", "0"]),
            EmitEvent.write (CodeItem.command ["pop", "rbp"]),
            EmitEvent.write (CodeItem.command ["ret"])]))
  | Node.ret return_value, code_store =>
    match make_code_tr return_value code_store with
    | (Except.error e, evs) => (Except.error e, EmitEvent.call (Node.ret return_value) :: evs)
    | (Except.ok (value_info, cs1), evs) =>
      match ReturnNode.emit_return_tr value_info cs1 with
      | (res, evs2) => (res, EmitEvent.call (Node.ret return_value) :: (evs ++ evs2))
  | Node.number number, code_store =>
    (Except.ok (PyValue.value ⟨ValueInfo.LITERAL, number.content⟩, code_store),
      [EmitEvent.call (Node.number number)])
  | Node.binop left_expr operator right_expr, code_store =>
    match make_code_tr left_expr code_store with
    | (Except.error e, evl) =>
      (Except.error e, EmitEvent.call (Node.binop left_expr operator right_expr) :: evl)
    | (Except.ok (left_value, cs1), evl) =>
      match make_code_tr right_expr cs1 with
      | (Except.error e, evr) =>
        (Except.error e,
          EmitEvent.call (Node.binop left_expr operator right_expr) :: (evl ++ evr))
      | (Except.ok (right_value, cs2), evr) =>
        ((if operator.kind = TokenKind.plus then
            BinaryOperatorNode.add left_value right_value cs2
          else if operator.kind = TokenKind.star then
            BinaryOperatorNode.multiply left_value right_value cs2
          else Except.error PyError.notImplemented),
          EmitEvent.call (Node.binop left_expr operator right_expr) :: (evl ++ evr))

/-- The statement loop, instrumented like make_code_tr. -/
def makeStatements_tr : List Node → CodeStore → Except PyError CodeStore × List EmitEvent
  | [], code_store => (Except.ok code_store, [])
  | s :: rest, code_store =>
    match make_code_tr s code_store with
    | (Except.error e, evs) => (Except.error e, evs)
    | (Except.ok (_, cs2), evs) =>
      match makeStatements_tr rest cs2 with
      | (res, evs2) => (res, evs ++ evs2)

end

/-- The well-formed expression fragment quantified over by the reachability
claim: trees built only from NumberNode leaves and BinaryOperatorNode nodes
whose operator kind dispatches to add or multiply. -/
def litTree : Node → Bool
  | Node.number _ => true
  | Node.binop l op r =>
    litTree l && (op.kind == TokenKind.plus || op.kind == TokenKind.star) && litTree r
  | _ => false

mutual

/-- Node.__eq__ of src/ast.py: type(other) is type(self) and the two __dict__
are equal, which compares every stored field recursively (child nodes through
Node.__eq__ again, statement lists elementwise, tokens by kind and content). -/
def node_eq : Node → Node → Bool
  | Node.main s1, Node.main s2 => nodeList_eq s1 s2
  | Node.ret e1, Node.ret e2 => node_eq e1 e2
  | Node.number t1, Node.number t2 => t1 == t2
  | Node.binop l1 o1 r1, Node.binop l2 o2 r2 =>
    node_eq l1 l2 && o1 == o2 && node_eq r1 r2
  | _, _ => false

/-- Python list equality over statement lists: elementwise Node.__eq__. -/
def nodeList_eq : List Node → List Node → Bool
  | [], [] => true
  | x :: xs, y :: ys => node_eq x y && nodeList_eq xs ys
  | _, _ => false

end

/-- The expression 2 + 3, a concrete sample input. -/
def sampleAdd : Node :=
  Node.binop (Node.number ⟨TokenKind.number, "2"⟩) ⟨TokenKind.plus, "+"⟩
    (Node.number ⟨TokenKind.number, "3"⟩)

/-- The expression 2 * 3, a concrete sample input. -/
def sampleMul : Node :=
  Node.binop (Node.number ⟨TokenKind.number, "2"⟩) ⟨TokenKind.star, "*"⟩
    (Node.number ⟨TokenKind.number, "3"⟩)

theorem checkStatements_ok (stmts : List Node)
    (h : ∀ s ∈ stmts, Node.symbol s = "statement") :
    checkStatements stmts = Except.ok () := by
  induction stmts with
  | nil => rfl
  | cons s rest ih =>
    have hs := h s (List.mem_cons_self s rest)
    simp [checkStatements, assert_symbol, hs,
      ih (fun x hx => h x (List.mem_cons_of_mem s hx))]

theorem checkStatements_error (stmts : List Node)
    (h : ∃ s ∈ stmts, Node.symbol s ≠ "statement") :
    ∃ bad, checkStatements stmts = Except.error (PyError.malformedSymbol "statement" bad) := by
  induction stmts with
  | nil => simp at h
  | cons s rest ih =>
    by_cases hs : Node.symbol s = "statement"
    · rcases h with ⟨x, hx, hxs⟩
      rcases List.mem_cons.mp hx with rfl | hx2
      · exact absurd hs hxs
      · obtain ⟨bad, hb⟩ := ih ⟨x, hx2, hxs⟩
        exact ⟨bad, by simp [checkStatements, assert_symbol, hs, hb]⟩
    · exact ⟨Node.symbol s, by simp [checkStatements, assert_symbol, hs]⟩

/-- C1: for a BinaryOperatorNode whose operand emissions both yield Literal
descriptors with decimal integer payloads parsing to a and b, make_code folds
a plus operator to the Literal descriptor of the decimal string of a + b and
a star operator to that of a * b, with exact (unbounded) integer
arithmetic on the parsed payloads. -/
theorem C1_constant_folding (l r : Node) (op : Token) (cs cs1 cs2 : CodeStore)
    (la lb : String) (a b : Int)
    (hl : Node.make_code l cs = Except.ok (PyValue.value ⟨ValueInfo.LITERAL, la⟩, cs1))
    (hr : Node.make_code r cs1 = Except.ok (PyValue.value ⟨ValueInfo.LITERAL, lb⟩, cs2))
    (ha : str_to_int la = Option.some a) (hb : str_to_int lb = Option.some b) :
    (op.kind = TokenKind.plus →
      Node.make_code (Node.binop l op r) cs =
        Except.ok (PyValue.value ⟨ValueInfo.LITERAL, toString (a + b)⟩, cs2)) ∧
    (op.kind = TokenKind.star →
      Node.make_code (Node.binop l op r) cs =
        Except.ok (PyValue.value ⟨ValueInfo.LITERAL, toString (a * b)⟩, cs2)) := by
  constructor <;> intro hop <;>
    simp [Node.make_code, hl, hr, hop, BinaryOperatorNode.add,
      BinaryOperatorNode.multiply, asValueInfo, ha, hb]

/-- Witness for C1 at 2 + 3 and 2 * 3. -/
theorem C1_witness :
    Node.make_code sampleAdd [] =
      Except.ok (PyValue.value ⟨ValueInfo.LITERAL, "5"⟩, []) ∧
    Node.make_code sampleMul [] =
      Except.ok (PyValue.value ⟨ValueInfo.LITERAL, "6"⟩, []) := by
  have hp := (C1_constant_folding (Node.number ⟨TokenKind.number, "2"⟩)
    (Node.number ⟨TokenKind.number, "3"⟩) ⟨TokenKind.plus, "+"⟩ [] [] [] "2" "3" 2 3
    rfl rfl rfl rfl).1 rfl
  have hm := (C1_constant_folding (Node.number ⟨TokenKind.number, "2"⟩)
    (Node.number ⟨TokenKind.number, "3"⟩) ⟨TokenKind.star, "*"⟩ [] [] [] "2" "3" 2 3
    rfl rfl rfl rfl).2 rfl
  exact ⟨hp, hm⟩

/-- C2: the claim states that emission raises a not-yet-supported error for a
non-Literal operand under plus and star alike, and for an unrecognized
operator.  The add path and the unrecognized-operator path do raise (second
and third conjuncts), but the star path diverges: multiply's non-Literal
branch reads `return NotImplementedError`, returning the exception class as
an ordinary value instead of raising it (first conjunct). -/
theorem C2_multiply_returns_not_raises :
    BinaryOperatorNode.multiply (PyValue.value ⟨2, "rax"⟩)
        (PyValue.value ⟨ValueInfo.LITERAL, "3"⟩) [] =
      Except.ok (PyValue.errClass, []) ∧
    BinaryOperatorNode.add (PyValue.value ⟨2, "rax"⟩)
        (PyValue.value ⟨ValueInfo.LITERAL, "3"⟩) [] =
      Except.error PyError.notImplemented ∧
    Node.make_code (Node.binop (Node.number ⟨TokenKind.number, "1"⟩)
        ⟨TokenKind.number, "1"⟩ (Node.number ⟨TokenKind.number, "2"⟩)) [] =
      Except.error PyError.notImplemented :=
  ⟨rfl, rfl, rfl⟩

/-- C3: emitting a MainNode appends, in order, the label main, the prologue
(push rbp; mov rbp, rsp), the statement emissions in list order (the
makeStatements loop), and then unconditionally the fallback tail
(mov rax, 0; pop rbp; ret), returning None; on an empty statement list the
buffer gains exactly the label, prologue and tail. -/
theorem C3_main_emission (stmts : List Node) (cs : CodeStore) :
    Node.make_code (Node.main stmts) cs =
      (makeStatements stmts (cs ++ [CodeItem.label "main",
          CodeItem.command ["push", "rbp"],
          CodeItem.command ["mov", "rbp", "rsp"]])).map
        (fun cs2 => (PyValue.none,
          cs2 ++ [CodeItem.command ["mov", "rax", "0"],
            CodeItem.command ["pop", "rbp"], CodeItem.command ["ret"]])) ∧
    Node.make_code (Node.main []) cs =
      Except.ok (PyValue.none, cs ++ [CodeItem.label "main",
        CodeItem.command ["push", "rbp"], CodeItem.command ["mov", "rbp", "rsp"],
        CodeItem.command ["mov", "rax", "0"], CodeItem.command ["pop", "rbp"],
        CodeItem.command ["ret"]]) := by
  constructor
  · rcases h : makeStatements stmts (cs ++ [CodeItem.label "main",
        CodeItem.command ["push", "rbp"],
        CodeItem.command ["mov", "rbp", "rsp"]]) with e | cs2 <;>
      simp [Node.make_code, add_label, add_command, h, Except.map]
  · simp [Node.make_code, makeStatements, add_label, add_command]

/-- C4: emitting a Return node whose expression descriptor has storage kind
Literal appends exactly mov rax payload; pop rbp; ret, in that order, and
returns None; a descriptor of any other storage kind makes the return path
raise a not-yet-supported error.  The first conjunct ties the node's
make_code to the factored return path. -/
theorem C4_return_emission (w : ValueInfo) (e : Node) (cs cs0 cs1 : CodeStore) :
    (Node.make_code e cs0 = Except.ok (PyValue.value w, cs1) →
      Node.make_code (Node.ret e) cs0 = ReturnNode.emit_return (PyValue.value w) cs1) ∧
    (w.storage_type = ValueInfo.LITERAL →
      ReturnNode.emit_return (PyValue.value w) cs =
        Except.ok (PyValue.none, cs ++ [CodeItem.command ["mov", "rax", w.storage_info],
          CodeItem.command ["pop", "rbp"], CodeItem.command ["ret"]])) ∧
    (w.storage_type ≠ ValueInfo.LITERAL →
      ReturnNode.emit_return (PyValue.value w) cs = Except.error PyError.notImplemented) := by
  refine ⟨fun h => ?_, fun h => ?_, fun h => ?_⟩
  · simp [Node.make_code, h]
  · simp [ReturnNode.emit_return, asValueInfo, h, add_command]
  · simp [ReturnNode.emit_return, asValueInfo, h]

/-- Witness for C4: return 5 emits the three instructions and returns None; a
non-Literal descriptor (tag 2) makes the return path raise. -/
theorem C4_witness :
    Node.make_code (Node.ret (Node.number ⟨TokenKind.number, "5"⟩)) [] =
      Except.ok (PyValue.none, [CodeItem.command ["mov", "rax", "5"],
        CodeItem.command ["pop", "rbp"], CodeItem.command ["ret"]]) ∧
    ReturnNode.emit_return (PyValue.value ⟨2, "rax"⟩) [] =
      Except.error PyError.notImplemented := by
  have h := C4_return_emission ⟨ValueInfo.LITERAL, "5"⟩
    (Node.number ⟨TokenKind.number, "5"⟩) [] [] []
  refine ⟨(h.1 rfl).trans ((h.2.1 rfl).trans (by simp)), ?_⟩
  exact (C4_return_emission ⟨2, "rax"⟩ (Node.number ⟨TokenKind.number, "5"⟩) [] [] []).2.2
    (by simp [ValueInfo.LITERAL])

/-- C5, counterexample: the claim says BinaryOperatorNode construction fails
with a malformed-tree error when the operator token's kind is not plus or
star; but constructing one with an operator token of kind number succeeds -
the constructor only checks the children's symbols and that the operator is a
Token. -/
theorem C5_counterexample :
    mkBinaryOperatorNode (Node.number ⟨TokenKind.number, "1"⟩)
        ⟨TokenKind.number, "9"⟩ (Node.number ⟨TokenKind.number, "2"⟩) =
      Except.ok (Node.binop (Node.number ⟨TokenKind.number, "1"⟩)
        ⟨TokenKind.number, "9"⟩ (Node.number ⟨TokenKind.number, "2"⟩)) := rfl

/-- C5, amended: BinaryOperatorNode construction performs no check on the
operator token's kind: for every operator token it succeeds whenever both
operand nodes carry the symbol expression (non-plus/star operators are
rejected only later, at emission). -/
theorem C5_no_operator_kind_check (l r : Node) (op : Token)
    (hl : Node.symbol l = "expression") (hr : Node.symbol r = "expression") :
    mkBinaryOperatorNode l op r = Except.ok (Node.binop l op r) := by
  simp [mkBinaryOperatorNode, assert_symbol, hl, hr]

/-- Witness for the amended C5 at a star operator. -/
theorem C5_witness :
    mkBinaryOperatorNode (Node.number ⟨TokenKind.number, "1"⟩)
        ⟨TokenKind.star, "*"⟩ (Node.number ⟨TokenKind.number, "2"⟩) =
      Except.ok (Node.binop (Node.number ⟨TokenKind.number, "1"⟩)
        ⟨TokenKind.star, "*"⟩ (Node.number ⟨TokenKind.number, "2"⟩)) :=
  C5_no_operator_kind_check _ _ _ rfl rfl

/-- C6: Return construction rejects a child whose symbol is not expression
and accepts one whose symbol is; NumberNode construction rejects a token
whose kind is not number and accepts a number token; MainNode construction
rejects a list holding any element whose symbol is not statement and accepts
a list of statements - rejection always raising the malformed-tree error. -/
theorem C6_construction_validation (e : Node) (t : Token) (stmts : List Node) :
    (Node.symbol e ≠ "expression" →
      mkReturnNode e = Except.error (PyError.malformedSymbol "expression" (Node.symbol e))) ∧
    (Node.symbol e = "expression" → mkReturnNode e = Except.ok (Node.ret e)) ∧
    (t.kind ≠ TokenKind.number →
      mkNumberNode t = Except.error (PyError.malformedKind TokenKind.number t.kind)) ∧
    (t.kind = TokenKind.number → mkNumberNode t = Except.ok (Node.number t)) ∧
    ((∃ s ∈ stmts, Node.symbol s ≠ "statement") →
      ∃ bad, mkMainNode stmts = Except.error (PyError.malformedSymbol "statement" bad)) ∧
    ((∀ s ∈ stmts, Node.symbol s = "statement") →
      mkMainNode stmts = Except.ok (Node.main stmts)) := by
  refine ⟨fun h => ?_, fun h => ?_, fun h => ?_, fun h => ?_, fun h => ?_, fun h => ?_⟩
  · simp [mkReturnNode, assert_symbol, h]
  · simp [mkReturnNode, assert_symbol, h]
  · simp [mkNumberNode, assert_kind, h]
  · simp [mkNumberNode, assert_kind, h]
  · obtain ⟨bad, hb⟩ := checkStatements_error stmts h
    exact ⟨bad, by simp [mkMainNode, hb]⟩
  · simp [mkMainNode, checkStatements_ok stmts h]

/-- Witness for C6: a statement child is rejected by Return construction, an
expression child accepted; a plus token is rejected by NumberNode
construction; an expression element is rejected by MainNode construction and
a return statement accepted. -/
theorem C6_witness :
    mkReturnNode (Node.main []) =
      Except.error (PyError.malformedSymbol "expression" "main_function") ∧
    mkReturnNode (Node.number ⟨TokenKind.number, "1"⟩) =
      Except.ok (Node.ret (Node.number ⟨TokenKind.number, "1"⟩)) ∧
    mkNumberNode ⟨TokenKind.plus, "+"⟩ =
      Except.error (PyError.malformedKind TokenKind.number TokenKind.plus) ∧
    (∃ bad, mkMainNode [Node.number ⟨TokenKind.number, "1"⟩] =
      Except.error (PyError.malformedSymbol "statement" bad)) ∧
    mkMainNode [Node.ret (Node.number ⟨TokenKind.number, "1"⟩)] =
      Except.ok (Node.main [Node.ret (Node.number ⟨TokenKind.number, "1"⟩)]) := by
  have h1 := C6_construction_validation (Node.main []) ⟨TokenKind.plus, "+"⟩
    [Node.number ⟨TokenKind.number, "1"⟩]
  have h2 := C6_construction_validation (Node.number ⟨TokenKind.number, "1"⟩)
    ⟨TokenKind.number, "1"⟩ [Node.ret (Node.number ⟨TokenKind.number, "1"⟩)]
  refine ⟨h1.1 (by simp [Node.symbol]), h2.2.1 rfl, h1.2.2.1 (by simp), ?_, ?_⟩
  · exact h1.2.2.2.2.1 ⟨Node.number ⟨TokenKind.number, "1"⟩, by simp, by simp [Node.symbol]⟩
  · exact h2.2.2.2.2.2 (by intro s hs; simp at hs; simp [hs, Node.symbol])

/-- C7: emitting a NumberNode returns a Literal descriptor whose payload is
the token's content unchanged, and leaves the instruction buffer exactly as
it was. -/
theorem C7_number_emission (t : Token) (cs : CodeStore) :
    Node.make_code (Node.number t) cs =
      Except.ok (PyValue.value ⟨ValueInfo.LITERAL, t.content⟩, cs) := by
  simp [Node.make_code]



theorem add_on_literals (s1 s2 : String) (cs : CodeStore) :
    (∃ s, BinaryOperatorNode.add (PyValue.value ⟨ValueInfo.LITERAL, s1⟩)
        (PyValue.value ⟨ValueInfo.LITERAL, s2⟩) cs =
      Except.ok (PyValue.value ⟨ValueInfo.LITERAL, s⟩, cs)) ∨
    BinaryOperatorNode.add (PyValue.value ⟨ValueInfo.LITERAL, s1⟩)
        (PyValue.value ⟨ValueInfo.LITERAL, s2⟩) cs =
      Except.error PyError.valueErrorInt := by
  rcases h1 : str_to_int s1 with _ | a
  · right; simp [BinaryOperatorNode.add, asValueInfo, h1]
  · rcases h2 : str_to_int s2 with _ | b
    · right; simp [BinaryOperatorNode.add, asValueInfo, h1, h2]
    · exact Or.inl ⟨toString (a + b), by simp [BinaryOperatorNode.add, asValueInfo, h1, h2]⟩

theorem multiply_on_literals (s1 s2 : String) (cs : CodeStore) :
    (∃ s, BinaryOperatorNode.multiply (PyValue.value ⟨ValueInfo.LITERAL, s1⟩)
        (PyValue.value ⟨ValueInfo.LITERAL, s2⟩) cs =
      Except.ok (PyValue.value ⟨ValueInfo.LITERAL, s⟩, cs)) ∨
    BinaryOperatorNode.multiply (PyValue.value ⟨ValueInfo.LITERAL, s1⟩)
        (PyValue.value ⟨ValueInfo.LITERAL, s2⟩) cs =
      Except.error PyError.valueErrorInt := by
  rcases h1 : str_to_int s1 with _ | a
  · right; simp [BinaryOperatorNode.multiply, asValueInfo, h1]
  · rcases h2 : str_to_int s2 with _ | b
    · right; simp [BinaryOperatorNode.multiply, asValueInfo, h1, h2]
    · exact Or.inl ⟨toString (a * b), by simp [BinaryOperatorNode.multiply, asValueInfo, h1, h2]⟩

theorem litTree_emits_literal : ∀ (k : Nat) (e : Node), sizeOf e ≤ k → litTree e = true →
    ∀ cs : CodeStore,
    (∃ s, Node.make_code e cs = Except.ok (PyValue.value ⟨ValueInfo.LITERAL, s⟩, cs)) ∨
    Node.make_code e cs = Except.error PyError.valueErrorInt := by
  intro k
  induction k with
  | zero => intro e he; exfalso; cases e <;> simp at he
  | succ k ih =>
    intro e he hlit cs
    cases e with
    | main ss => simp [litTree] at hlit
    | ret x => simp [litTree] at hlit
    | number t => exact Or.inl ⟨t.content, by simp [Node.make_code]⟩
    | binop l op r =>
      simp [litTree] at hlit
      obtain ⟨⟨hl, hop⟩, hr⟩ := hlit
      have hsl : sizeOf l ≤ k := by simp at he; omega
      have hsr : sizeOf r ≤ k := by simp at he; omega
      rcases ih l hsl hl cs with ⟨s1, h1⟩ | h1
      · rcases ih r hsr hr cs with ⟨s2, h2⟩ | h2
        · rcases hop with hplus | hstar
          · rcases add_on_literals s1 s2 cs with ⟨s, hs⟩ | hs
            · exact Or.inl ⟨s, by simp [Node.make_code, h1, h2, hplus, hs]⟩
            · right; simp [Node.make_code, h1, h2, hplus, hs]
          · rcases multiply_on_literals s1 s2 cs with ⟨s, hs⟩ | hs
            · exact Or.inl ⟨s, by simp [Node.make_code, h1, h2, hstar, hs]⟩
            · right; simp [Node.make_code, h1, h2, hstar, hs]
        · right; simp [Node.make_code, h1, h2]
      · right; simp [Node.make_code, h1]



/-- C8: for every well-formed tree of NumberNode leaves and
BinaryOperatorNode nodes dispatching to plus or star, emission either yields a
Literal descriptor (leaving the buffer untouched) or raises only int()'s
ValueError on a non-numeric token text - never a value of another storage
kind, never the NotImplementedError class multiply's non-Literal branch would
return, and never the not-yet-supported or attribute errors of the non-Literal
branches; likewise a Return wrapped around such a tree either emits its
sequence and returns None or propagates that same ValueError, its non-Literal
branch being unreachable. -/
theorem C8_all_descriptors_literal (e : Node) (cs : CodeStore) (h : litTree e = true) :
    ((∃ s, Node.make_code e cs = Except.ok (PyValue.value ⟨ValueInfo.LITERAL, s⟩, cs)) ∨
      Node.make_code e cs = Except.error PyError.valueErrorInt) ∧
    ((∃ cs2, Node.make_code (Node.ret e) cs = Except.ok (PyValue.none, cs2)) ∨
      Node.make_code (Node.ret e) cs = Except.error PyError.valueErrorInt) := by
  have hmain := litTree_emits_literal (sizeOf e) e le_rfl h cs
  refine ⟨hmain, ?_⟩
  rcases hmain with ⟨s, hs⟩ | hs
  · exact Or.inl ⟨add_command (add_command (add_command cs ["mov", "rax", s])
      ["pop", "rbp"]) ["ret"],
      by simp [Node.make_code, hs, ReturnNode.emit_return, asValueInfo]⟩
  · right; simp [Node.make_code, hs]

/-- Witness for C8 at the tree (2 + 3) * (4 + 5). -/
theorem C8_witness :
    litTree (Node.binop sampleAdd ⟨TokenKind.star, "*"⟩
      (Node.binop (Node.number ⟨TokenKind.number, "4"⟩) ⟨TokenKind.plus, "+"⟩
        (Node.number ⟨TokenKind.number, "5"⟩))) = true ∧
    (((∃ s, Node.make_code (Node.binop sampleAdd ⟨TokenKind.star, "*"⟩
        (Node.binop (Node.number ⟨TokenKind.number, "4"⟩) ⟨TokenKind.plus, "+"⟩
          (Node.number ⟨TokenKind.number, "5"⟩))) [] =
        Except.ok (PyValue.value ⟨ValueInfo.LITERAL, s⟩, [])) ∨
      Node.make_code (Node.binop sampleAdd ⟨TokenKind.star, "*"⟩
        (Node.binop (Node.number ⟨TokenKind.number, "4"⟩) ⟨TokenKind.plus, "+"⟩
          (Node.number ⟨TokenKind.number, "5"⟩))) [] =
        Except.error PyError.valueErrorInt) ∧
    ((∃ cs2, Node.make_code (Node.ret (Node.binop sampleAdd ⟨TokenKind.star, "*"⟩
        (Node.binop (Node.number ⟨TokenKind.number, "4"⟩) ⟨TokenKind.plus, "+"⟩
          (Node.number ⟨TokenKind.number, "5"⟩)))) [] =
        Except.ok (PyValue.none, cs2)) ∨
      Node.make_code (Node.ret (Node.binop sampleAdd ⟨TokenKind.star, "*"⟩
        (Node.binop (Node.number ⟨TokenKind.number, "4"⟩) ⟨TokenKind.plus, "+"⟩
          (Node.number ⟨TokenKind.number, "5"⟩)))) [] =
        Except.error PyError.valueErrorInt)) :=
  ⟨rfl, C8_all_descriptors_literal _ [] rfl⟩



theorem emit_return_tr_fst (vi : PyValue) (cs : CodeStore) :
    (ReturnNode.emit_return_tr vi cs).1 = ReturnNode.emit_return vi cs := by
  cases vi with
  | value v =>
    simp only [ReturnNode.emit_return_tr, ReturnNode.emit_return, asValueInfo]
    split <;> rfl
  | none => rfl
  | errClass => rfl

theorem tr_agrees : ∀ (k : Nat),
    (∀ (n : Node), sizeOf n ≤ k → ∀ cs, (make_code_tr n cs).1 = Node.make_code n cs) ∧
    (∀ (l : List Node), sizeOf l ≤ k → ∀ cs, (makeStatements_tr l cs).1 = makeStatements l cs) := by
  intro k
  induction k with
  | zero =>
    constructor
    · intro n hn; exfalso; cases n <;> simp at hn
    · intro l hl; exfalso; cases l <;> simp at hl
  | succ k ih =>
    obtain ⟨ihn, ihl⟩ := ih
    constructor
    · intro n hn cs
      cases n with
      | main ss =>
        simp only [make_code_tr, Node.make_code]
        have h := ihl ss (by simp at hn; omega)
          (add_command (add_command (add_label cs "main") ["push", "rbp"]) ["mov", "rbp", "rsp"])
        rw [← h]
        rcases hts : makeStatements_tr ss (add_command (add_command (add_label cs "main")
          ["push", "rbp"]) ["mov", "rbp", "rsp"]) with ⟨res, evs⟩
        cases res <;> simp [hts]
      | ret x =>
        simp only [make_code_tr, Node.make_code]
        have h := ihn x (by simp at hn; omega) cs
        rw [← h]
        rcases hx : make_code_tr x cs with ⟨res, evs⟩
        cases res with
        | error e => simp [hx]
        | ok p =>
          rcases p with ⟨vi, cs1⟩
          simp [hx, emit_return_tr_fst]
      | number t => rfl
      | binop l op r =>
        simp only [make_code_tr, Node.make_code]
        have hl := ihn l (by simp at hn; omega) cs
        rw [← hl]
        rcases h1 : make_code_tr l cs with ⟨res1, evl⟩
        cases res1 with
        | error e => simp [h1]
        | ok p =>
          rcases p with ⟨lv, cs1⟩
          have hr := ihn r (by simp at hn; omega) cs1
          rcases h2 : make_code_tr r cs1 with ⟨res2, evr⟩
          rw [h2] at hr
          cases res2 with
          | error e => simp [h1, h2, ← hr]
          | ok q => rcases q with ⟨rv, cs2⟩; simp [h1, h2, ← hr]
    · intro l hl cs
      cases l with
      | nil => rfl
      | cons s rest =>
        simp only [makeStatements_tr, makeStatements]
        have hs := ihn s (by simp at hl; omega) cs
        rw [← hs]
        rcases h1 : make_code_tr s cs with ⟨res, evs⟩
        cases res with
        | error e => simp [h1]
        | ok p =>
          rcases p with ⟨v, cs2⟩
          have hrest := ihl rest (by simp at hl; omega) cs2
          simp [h1, hrest]

theorem make_code_tr_fst (n : Node) (cs : CodeStore) :
    (make_code_tr n cs).1 = Node.make_code n cs :=
  (tr_agrees (sizeOf n)).1 n le_rfl cs

/-- C9: the instrumented emission double agrees with make_code (first
conjunct), and for every BinaryOperatorNode whose left operand emission
returns, the trace of calls and buffer writes is exactly the node's own entry
followed by the complete trace of the left subtree and then the complete
trace of the right subtree, for every operator token and operands pure or
not - the entire left subtree precedes the entire right subtree. -/
theorem C9_left_subtree_first (l r : Node) (op : Token) (cs : CodeStore) :
    ((make_code_tr (Node.binop l op r) cs).1 = Node.make_code (Node.binop l op r) cs) ∧
    (∀ lv cs1, Node.make_code l cs = Except.ok (lv, cs1) →
      (make_code_tr (Node.binop l op r) cs).2 =
        EmitEvent.call (Node.binop l op r) ::
          ((make_code_tr l cs).2 ++ (make_code_tr r cs1).2)) := by
  refine ⟨make_code_tr_fst _ _, fun lv cs1 h => ?_⟩
  have hl := make_code_tr_fst l cs
  rcases h1 : make_code_tr l cs with ⟨res1, evl⟩
  rw [h1] at hl
  simp at hl
  have hres : res1 = Except.ok (lv, cs1) := hl.trans h
  subst hres
  simp only [make_code_tr, h1]
  rcases h2 : make_code_tr r cs1 with ⟨res2, evr⟩
  cases res2 <;> simp [h1, h2]

/-- Witness for C9. -/
theorem C9_witness :
    ((make_code_tr sampleAdd []).1 = Node.make_code sampleAdd []) ∧
    ((make_code_tr sampleAdd []).2 =
      EmitEvent.call sampleAdd ::
        ((make_code_tr (Node.number ⟨TokenKind.number, "2"⟩) []).2 ++
          (make_code_tr (Node.number ⟨TokenKind.number, "3"⟩) []).2)) := by
  have h := C9_left_subtree_first (Node.number ⟨TokenKind.number, "2"⟩)
    (Node.number ⟨TokenKind.number, "3"⟩) ⟨TokenKind.plus, "+"⟩ []
  exact ⟨h.1, h.2 (PyValue.value ⟨ValueInfo.LITERAL, "2"⟩) [] rfl⟩

theorem node_eq_iff_aux : ∀ (k : Nat),
    (∀ (n m : Node), sizeOf n ≤ k → (node_eq n m = true ↔ n = m)) ∧
    (∀ (xs ys : List Node), sizeOf xs ≤ k → (nodeList_eq xs ys = true ↔ xs = ys)) := by
  intro k
  induction k with
  | zero =>
    constructor
    · intro n m hn; exfalso; cases n <;> simp at hn
    · intro xs ys hx; exfalso; cases xs <;> simp at hx
  | succ k ih =>
    obtain ⟨ihn, ihl⟩ := ih
    constructor
    · intro n m hn
      cases n with
      | main s1 =>
        have hs : sizeOf s1 ≤ k := by simp at hn; omega
        cases m with
        | main s2 => simp [node_eq, ihl s1 s2 hs]
        | ret e2 => simp [node_eq]
        | number t2 => simp [node_eq]
        | binop l2 o2 r2 => simp [node_eq]
      | ret e1 =>
        have hs : sizeOf e1 ≤ k := by simp at hn; omega
        cases m with
        | main s2 => simp [node_eq]
        | ret e2 => simp [node_eq, ihn e1 e2 hs]
        | number t2 => simp [node_eq]
        | binop l2 o2 r2 => simp [node_eq]
      | number t1 =>
        cases m with
        | main s2 => simp [node_eq]
        | ret e2 => simp [node_eq]
        | number t2 => simp [node_eq]
        | binop l2 o2 r2 => simp [node_eq]
      | binop l1 o1 r1 =>
        have hsl : sizeOf l1 ≤ k := by simp at hn; omega
        have hsr : sizeOf r1 ≤ k := by simp at hn; omega
        cases m with
        | main s2 => simp [node_eq]
        | ret e2 => simp [node_eq]
        | number t2 => simp [node_eq]
        | binop l2 o2 r2 =>
          simp [node_eq, ihn l1 l2 hsl, ihn r1 r2 hsr, and_assoc]
    · intro xs ys hx
      cases xs with
      | nil => cases ys <;> simp [nodeList_eq]
      | cons x xs =>
        have h1 : sizeOf x ≤ k := by simp at hx; omega
        have h2 : sizeOf xs ≤ k := by simp at hx; omega
        cases ys with
        | nil => simp [nodeList_eq]
        | cons y ys => simp [nodeList_eq, ihn x y h1, ihl xs ys h2]

/-- C10: Node.__eq__ is structural equality - it holds iff the two nodes are
the same variant with recursively equal fields, so independently built
identical trees compare equal and any differing field or variant makes the
comparison false. -/
theorem C10_structural_equality (n m : Node) : node_eq n m = true ↔ n = m :=
  (node_eq_iff_aux (sizeOf n)).1 n m le_rfl

/-- Witness for C10. -/
theorem C10_witness :
    node_eq (Node.ret sampleAdd) (Node.ret sampleAdd) = true ∧
    node_eq sampleAdd sampleMul = false := by
  refine ⟨(C10_structural_equality _ _).mpr rfl, rfl⟩

end ShivyC
